import Mathlib

set_option maxHeartbeats 1000000
set_option maxRecDepth 8000

namespace Daisy

/-- Maximum cumulative length of buffered sysex data per midi parser, in bytes
(SYSEX_BUF_MAX_SIZE in midi.h). -/
def SYSEX_BUF_MAX_SIZE : Nat := 1024

/-- Max chunk length of sysex data enqueued in each parsed event
(SYSEX_BUF_CHUNK_LEN in midi.h). -/
def SYSEX_BUF_CHUNK_LEN : Nat := 128

/-- Modelled from the spec: the shared byte queue (util/ringbuffer.h is not in
src). Per spec section 3 it is a fixed-capacity (1024) non-blocking FIFO with a
readable count, a writable count, a single-byte write, a destructive
single-byte read and a bulk discard. We model it as the list of buffered
bytes, oldest first. -/
structure RingBuffer where
  data : List Nat
deriving DecidableEq

/-- Modelled from the spec: number of buffered bytes available to read. -/
def RingBuffer.readable (rb : RingBuffer) : Nat := rb.data.length

/-- Modelled from the spec: free space left in the fixed-capacity FIFO. -/
def RingBuffer.writable (rb : RingBuffer) : Nat :=
  SYSEX_BUF_MAX_SIZE - rb.data.length

/-- Modelled from the spec: append one byte (callers check writable first). -/
def RingBuffer.Write (rb : RingBuffer) (b : Nat) : RingBuffer :=
  ⟨rb.data ++ [b]⟩

/-- Modelled from the spec: destructive read of one byte; assumes data is
available (every caller gates on readable, so the empty case is unreachable). -/
def RingBuffer.ImmediateRead (rb : RingBuffer) : Nat × RingBuffer :=
  match rb.data with
  | [] => (0, ⟨[]⟩)
  | x :: xs => (x, ⟨xs⟩)

/-- Modelled from the spec: bulk discard of all buffered content. -/
def RingBuffer.Flush (_rb : RingBuffer) : RingBuffer := ⟨[]⟩

/-- The SysexChunk::Type enum from midi.h. -/
inductive SysexChunkType
  | Invalid
  | Individual
  | SeqFirst
  | SeqIntermediate
  | SeqLast
deriving DecidableEq

/-- The SysexChunk class from midi.h. The C++ member ringbuf_ is a pointer to
the shared ring buffer; we model the pointer by the flag hasRingbuf (false =
nullptr) and pass the borrowed queue explicitly to each read operation. -/
structure SysexChunk where
  type_ : SysexChunkType
  hasRingbuf : Bool
  size_ : Nat
  bytes_read_ : Nat
deriving DecidableEq

/-- The default SysexChunk constructor: Invalid type, no ring buffer, zero
size, zero bytes read. -/
def SysexChunk.default : SysexChunk :=
  ⟨SysexChunkType.Invalid, false, 0, 0⟩

/-- SysexChunk::can_read from midi.h: bytes_read_ < size_ and ringbuf_ bound
and at least one readable byte. -/
def SysexChunk.can_read (c : SysexChunk) (rb : RingBuffer) : Bool :=
  decide (c.bytes_read_ < c.size_) && c.hasRingbuf && decide (0 < rb.readable)

/-- SysexChunk::ReadByte from midi.h: if the gate is closed return the 0xff
sentinel and change nothing; otherwise count the byte as read and destructively
read it from the ring buffer. -/
def SysexChunk.ReadByte (c : SysexChunk) (rb : RingBuffer) :
    Nat × SysexChunk × RingBuffer :=
  if c.can_read rb then
    let r := rb.ImmediateRead
    (r.1, { c with bytes_read_ := c.bytes_read_ + 1 }, r.2)
  else
    (0xff, c, rb)

/-- The loop body of SysexChunk::ReadBytes: while can_read and count < size,
copy one byte out of the ring buffer and count it as read. The remaining
count is the structural fuel. -/
def SysexChunk.readBytesLoop (c : SysexChunk) (rb : RingBuffer) :
    Nat → List Nat × SysexChunk × RingBuffer
  | 0 => ([], c, rb)
  | n + 1 =>
    if c.can_read rb then
      let r := rb.ImmediateRead
      let rest := SysexChunk.readBytesLoop
        { c with bytes_read_ := c.bytes_read_ + 1 } r.2 n
      (r.1 :: rest.1, rest.2.1, rest.2.2)
    else
      ([], c, rb)

/-- SysexChunk::ReadBytes from midi.h. The C++ takes a destination pointer and
a maximum count and returns the number of bytes copied; we model the null
check by the flag bufNull and return the copied bytes as a list (its length is
the returned count). -/
def SysexChunk.ReadBytes (c : SysexChunk) (bufNull : Bool) (size : Nat)
    (rb : RingBuffer) : List Nat × SysexChunk × RingBuffer :=
  if bufNull then ([], c, rb)
  else SysexChunk.readBytesLoop c rb size

/-- The MidiMessageType enum from midi.h. -/
inductive MidiMessageType
  | NoteOff
  | NoteOn
  | PolyphonicKeyPressure
  | ControlChange
  | ProgramChange
  | ChannelPressure
  | PitchBend
  | SystemCommon
  | SystemRealTime
  | ChannelMode
  | MessageLast
deriving DecidableEq

/-- Numeric value of each MidiMessageType enumerator. -/
def MidiMessageType.toNat : MidiMessageType → Nat
  | .NoteOff => 0
  | .NoteOn => 1
  | .PolyphonicKeyPressure => 2
  | .ControlChange => 3
  | .ProgramChange => 4
  | .ChannelPressure => 5
  | .PitchBend => 6
  | .SystemCommon => 7
  | .SystemRealTime => 8
  | .ChannelMode => 9
  | .MessageLast => 10

/-- The C++ static_cast from an integer to MidiMessageType (the parser only
casts values in 0..7). -/
def MidiMessageType.fromNat : Nat → MidiMessageType
  | 0 => .NoteOff
  | 1 => .NoteOn
  | 2 => .PolyphonicKeyPressure
  | 3 => .ControlChange
  | 4 => .ProgramChange
  | 5 => .ChannelPressure
  | 6 => .PitchBend
  | 7 => .SystemCommon
  | 8 => .SystemRealTime
  | 9 => .ChannelMode
  | _ => .MessageLast

/-- The SystemCommonType enum from midi.h. -/
inductive SystemCommonType
  | SystemExclusive
  | MTCQuarterFrame
  | SongPositionPointer
  | SongSelect
  | SCUndefined0
  | SCUndefined1
  | TuneRequest
  | SysExEnd
  | SystemCommonLast
deriving DecidableEq

/-- Numeric value of each SystemCommonType enumerator. -/
def SystemCommonType.toNat : SystemCommonType → Nat
  | .SystemExclusive => 0
  | .MTCQuarterFrame => 1
  | .SongPositionPointer => 2
  | .SongSelect => 3
  | .SCUndefined0 => 4
  | .SCUndefined1 => 5
  | .TuneRequest => 6
  | .SysExEnd => 7
  | .SystemCommonLast => 8

/-- The C++ static_cast from an integer to SystemCommonType (the parser only
casts values in 0..7). -/
def SystemCommonType.fromNat : Nat → SystemCommonType
  | 0 => .SystemExclusive
  | 1 => .MTCQuarterFrame
  | 2 => .SongPositionPointer
  | 3 => .SongSelect
  | 4 => .SCUndefined0
  | 5 => .SCUndefined1
  | 6 => .TuneRequest
  | 7 => .SysExEnd
  | _ => .SystemCommonLast

/-- The SystemRealTimeType enum from midi.h. -/
inductive SystemRealTimeType
  | TimingClock
  | SRTUndefined0
  | Start
  | Continue
  | Stop
  | SRTUndefined1
  | ActiveSensing
  | Reset
  | SystemRealTimeLast
deriving DecidableEq

/-- The C++ static_cast from an integer to SystemRealTimeType (the parser only
casts values in 0..7). -/
def SystemRealTimeType.fromNat : Nat → SystemRealTimeType
  | 0 => .TimingClock
  | 1 => .SRTUndefined0
  | 2 => .Start
  | 3 => .Continue
  | 4 => .Stop
  | 5 => .SRTUndefined1
  | 6 => .ActiveSensing
  | 7 => .Reset
  | _ => .SystemRealTimeLast

/-- The ChannelModeType enum from midi.h. -/
inductive ChannelModeType
  | AllSoundOff
  | ResetAllControllers
  | LocalControl
  | AllNotesOff
  | OmniModeOff
  | OmniModeOn
  | MonoModeOn
  | PolyModeOn
  | ChannelModeLast
deriving DecidableEq

/-- The C++ static_cast from an integer to ChannelModeType (the parser only
casts values in 0..7, namely data[0] - 120 with data[0] in 120..127). -/
def ChannelModeType.fromNat : Nat → ChannelModeType
  | 0 => .AllSoundOff
  | 1 => .ResetAllControllers
  | 2 => .LocalControl
  | 3 => .AllNotesOff
  | 4 => .OmniModeOff
  | 5 => .OmniModeOn
  | 6 => .MonoModeOn
  | 7 => .PolyModeOn
  | _ => .ChannelModeLast

/-- The MidiEvent struct from midi.h. The C++ fields data[0] and data[1] are
modelled as data0 and data1. -/
structure MidiEvent where
  type : MidiMessageType
  channel : Nat
  data0 : Nat
  data1 : Nat
  sysex_chunk : SysexChunk
  sc_type : SystemCommonType
  srt_type : SystemRealTimeType
  cm_type : ChannelModeType
deriving DecidableEq

/-- The PitchBendEvent struct from midi.h; value is an int16_t, modelled as an
integer together with the int16_t wrap in AsPitchBend. -/
structure PitchBendEvent where
  channel : Nat
  value : Int
deriving DecidableEq

/-- Conversion of an integer to the int16_t value it is stored as (two(s)
complement wrap into -32768..32767). -/
def toInt16 (x : Int) : Int := (x + 32768) % 65536 - 32768

/-- MidiEvent::AsPitchBend from midi.h: value is
(uint16_t)data[1] << 7 plus (data[0] - 8192), computed in int arithmetic and
stored into an int16_t field. -/
def MidiEvent.AsPitchBend (e : MidiEvent) : PitchBendEvent :=
  { channel := e.channel,
    value := toInt16 ((e.data1 : Int) * 128 + ((e.data0 : Int) - 8192)) }

/-- Modelled from the spec: the status-byte mask from the missing
midi_parser.h; per spec section 4.3 a status byte is any byte with the high
bit set. -/
def kStatusByteMask : Nat := 0x80

/-- Modelled from the spec: channel is decoded from the low 4 bits of the
status byte. -/
def kChannelMask : Nat := 0x0F

/-- Modelled from the spec: the message-kind nibble is decoded from bits 6..4
of the status byte. -/
def kMessageMask : Nat := 0x70

/-- Modelled from the spec: data bytes keep their low 7 bits. -/
def kDataByteMask : Nat := 0x7F

/-- Modelled from the spec: the system-real-time subkind is decoded from the
low 3 bits of the status byte. -/
def kSystemRealTimeMask : Nat := 0x07

/-- The ParserState enum from the missing midi_parser.h; the four states are
named in the switch of MidiParser::Parse in midi_parser.cpp. -/
inductive ParserState
  | ParserEmpty
  | ParserHasStatus
  | ParserHasData0
  | ParserSysEx
deriving DecidableEq

/-- The MidiParser state: parse state, the single reusable incoming event,
the cached running status, the shared sysex ring buffer and the sysex chunk
bookkeeping (all named as the members used by midi_parser.cpp). -/
structure MidiParser where
  pstate_ : ParserState
  incoming_message_ : MidiEvent
  running_status_ : MidiMessageType
  sysex_buf_ : RingBuffer
  sysex_chunk_len_ : Nat
  sysex_chunk_count_ : Nat
  sysex_overflow_ : Bool
deriving DecidableEq

/-- MidiParser::produceSysexChunk from midi_parser.cpp. The C++ writes through
the event_out pointer when it is not null; eventOutNull = true models a null
pointer and the written event is returned as an Option. The produced chunk
borrows the parser ring buffer (hasRingbuf = true) with bytes_read_ = 0. -/
def MidiParser.produceSysexChunk (p : MidiParser) (eventOutNull : Bool)
    (msg_ended : Bool) : MidiParser × Option MidiEvent :=
  let tc : SysexChunkType × Nat :=
    if p.sysex_chunk_count_ = 0 then
      if msg_ended then (SysexChunkType.Individual, p.sysex_chunk_count_)
      else (SysexChunkType.SeqFirst, p.sysex_chunk_count_ + 1)
    else if msg_ended then (SysexChunkType.SeqLast, 0)
    else (SysexChunkType.SeqIntermediate, p.sysex_chunk_count_ + 1)
  let ev : Option MidiEvent :=
    if eventOutNull then none
    else some { p.incoming_message_ with
      sysex_chunk := ⟨tc.1, true, p.sysex_chunk_len_, 0⟩ }
  ({ p with sysex_chunk_count_ := tc.2, sysex_chunk_len_ := 0 }, ev)

/-- MidiParser::Parse from midi_parser.cpp, translated branch by branch.
eventOutNull = true models a null event_out pointer; the returned Bool is
did_parse and the returned Option is what was written through event_out. -/
def MidiParser.Parse (p0 : MidiParser) (byte : Nat) (eventOutNull : Bool) :
    MidiParser × Bool × Option MidiEvent :=
  let p := if byte &&& kStatusByteMask ≠ 0 ∧ p0.pstate_ ≠ ParserState.ParserSysEx
    then { p0 with pstate_ := ParserState.ParserEmpty } else p0
  match p.pstate_ with
  | ParserState.ParserEmpty =>
    if byte &&& kStatusByteMask ≠ 0 then
      let msg1 := { p.incoming_message_ with
        channel := byte &&& kChannelMask,
        type := MidiMessageType.fromNat ((byte &&& kMessageMask) >>> 4) }
      let msg2 := if byte &&& 0xF8 = 0xF8 then
        { msg1 with type := MidiMessageType.SystemRealTime } else msg1
      if msg2.type.toNat < MidiMessageType.MessageLast.toNat then
        if msg2.type = MidiMessageType.SystemCommon then
          let msg3 := { msg2 with
            channel := 0,
            sc_type := SystemCommonType.fromNat (byte &&& 0x07) }
          if msg3.sc_type = SystemCommonType.SystemExclusive then
            ({ p with
               pstate_ := ParserState.ParserSysEx,
               incoming_message_ := msg3 }, false, none)
          else if SystemCommonType.SongSelect.toNat < msg3.sc_type.toNat then
            ({ p with
               pstate_ := ParserState.ParserEmpty,
               incoming_message_ := msg3 }, true,
              if eventOutNull then none else some msg3)
          else
            ({ p with
               pstate_ := ParserState.ParserHasStatus,
               incoming_message_ := msg3 }, false, none)
        else if msg2.type = MidiMessageType.SystemRealTime then
          let msg3 := { msg2 with
            srt_type := SystemRealTimeType.fromNat (byte &&& kSystemRealTimeMask) }
          ({ p with
             pstate_ := ParserState.ParserEmpty,
             incoming_message_ := msg3 }, true,
            if eventOutNull then none else some msg3)
        else
          ({ p with
             pstate_ := ParserState.ParserHasStatus,
             incoming_message_ := msg2,
             running_status_ := msg2.type }, false, none)
      else
        ({ p with incoming_message_ := msg2 }, false, none)
    else
      let msg1 := { p.incoming_message_ with
        type := p.running_status_,
        data0 := byte &&& kDataByteMask }
      if p.running_status_ = MidiMessageType.ChannelPressure
         ∨ p.running_status_ = MidiMessageType.ProgramChange
         ∨ msg1.sc_type = SystemCommonType.MTCQuarterFrame
         ∨ msg1.sc_type = SystemCommonType.SongSelect then
        ({ p with
           pstate_ := ParserState.ParserEmpty,
           incoming_message_ := msg1 }, true,
          if eventOutNull then none else some msg1)
      else
        ({ p with
           pstate_ := ParserState.ParserHasData0,
           incoming_message_ := msg1 }, false, none)
  | ParserState.ParserHasStatus =>
    if byte &&& kStatusByteMask = 0 then
      let msg1 := { p.incoming_message_ with data0 := byte &&& kDataByteMask }
      let st := if p.running_status_ = MidiMessageType.ChannelPressure
          ∨ p.running_status_ = MidiMessageType.ProgramChange
          ∨ msg1.sc_type = SystemCommonType.MTCQuarterFrame
          ∨ msg1.sc_type = SystemCommonType.SongSelect
        then ParserState.ParserEmpty
        else ParserState.ParserHasData0
      let dp := if p.running_status_ = MidiMessageType.ChannelPressure
          ∨ p.running_status_ = MidiMessageType.ProgramChange
          ∨ msg1.sc_type = SystemCommonType.MTCQuarterFrame
          ∨ msg1.sc_type = SystemCommonType.SongSelect
        then true else false
      let ev : Option MidiEvent :=
        if p.running_status_ = MidiMessageType.ChannelPressure
          ∨ p.running_status_ = MidiMessageType.ProgramChange
          ∨ msg1.sc_type = SystemCommonType.MTCQuarterFrame
          ∨ msg1.sc_type = SystemCommonType.SongSelect
        then (if eventOutNull then none else some msg1) else none
      let msg2 := if p.running_status_ = MidiMessageType.ControlChange
          ∧ 119 < msg1.data0
        then { msg1 with
          type := MidiMessageType.ChannelMode,
          cm_type := ChannelModeType.fromNat (msg1.data0 - 120) }
        else msg1
      let rs2 := if p.running_status_ = MidiMessageType.ControlChange
          ∧ 119 < msg1.data0
        then MidiMessageType.ChannelMode
        else p.running_status_
      ({ p with
         pstate_ := st,
         incoming_message_ := msg2,
         running_status_ := rs2 }, dp, ev)
    else
      ({ p with pstate_ := ParserState.ParserEmpty }, false, none)
  | ParserState.ParserHasData0 =>
    if byte &&& kStatusByteMask = 0 then
      let msg1 := { p.incoming_message_ with data1 := byte &&& kDataByteMask }
      let msg2 := if p.running_status_ = MidiMessageType.NoteOn ∧ msg1.data1 = 0
        then { msg1 with type := MidiMessageType.NoteOff } else msg1
      ({ p with
         pstate_ := ParserState.ParserEmpty,
         incoming_message_ := msg2 }, true,
        if eventOutNull then none else some msg2)
    else
      ({ p with pstate_ := ParserState.ParserEmpty }, false, none)
  | ParserState.ParserSysEx =>
    if byte = 0xF7 then
      if p.sysex_overflow_ then
        ({ p with
           sysex_buf_ := p.sysex_buf_.Flush,
           sysex_chunk_len_ := 0,
           sysex_chunk_count_ := 0,
           sysex_overflow_ := false }, false, none)
      else
        let p2 := { p with pstate_ := ParserState.ParserEmpty }
        let r := p2.produceSysexChunk eventOutNull true
        (r.1, true, r.2)
    else
      if p.sysex_overflow_ = false ∧ 0 < p.sysex_buf_.writable then
        let p2 := { p with
          sysex_buf_ := p.sysex_buf_.Write byte,
          sysex_chunk_len_ := p.sysex_chunk_len_ + 1 }
        if SYSEX_BUF_CHUNK_LEN ≤ p2.sysex_chunk_len_ then
          let r := p2.produceSysexChunk eventOutNull false
          (r.1, true, r.2)
        else (p2, false, none)
      else
        ({ p with sysex_overflow_ := true }, false, none)

/-- MidiParser::Reset from midi_parser.cpp. -/
def MidiParser.Reset (p : MidiParser) : MidiParser :=
  { p with
    pstate_ := ParserState.ParserEmpty,
    sysex_chunk_len_ := 0,
    sysex_chunk_count_ := 0,
    sysex_overflow_ := false,
    incoming_message_ := { p.incoming_message_ with
      type := MidiMessageType.MessageLast,
      sysex_chunk := SysexChunk.default } }

/-- Modelled from the spec: the initial parser state (the constructor in the
missing midi_parser.h). Per spec section 4.3 the parser starts Empty with the
none-kind sentinel and zero exclusive-data bookkeeping; the remaining members
are zero-initialized to the first enumerator or zero, and the ring buffer
starts empty. -/
def initMidiParser : MidiParser :=
  { pstate_ := ParserState.ParserEmpty,
    incoming_message_ :=
      { type := MidiMessageType.MessageLast,
        channel := 0,
        data0 := 0,
        data1 := 0,
        sysex_chunk := SysexChunk.default,
        sc_type := SystemCommonType.SystemExclusive,
        srt_type := SystemRealTimeType.TimingClock,
        cm_type := ChannelModeType.AllSoundOff },
    running_status_ := MidiMessageType.NoteOff,
    sysex_buf_ := ⟨[]⟩,
    sysex_chunk_len_ := 0,
    sysex_chunk_count_ := 0,
    sysex_overflow_ := false }

/-- Feed a list of bytes to the parser one at a time (with a valid event_out
pointer), collecting the completed events in order. -/
def MidiParser.feedAll : MidiParser → List Nat → MidiParser × List MidiEvent
  | p, [] => (p, [])
  | p, b :: rest =>
    let r := p.Parse b false
    let rr := MidiParser.feedAll r.1 rest
    (rr.1, r.2.2.toList ++ rr.2)


/-- The channel bookkeeping invariant of the parser: the cached event channel
is a valid channel number, a cached SystemCommon event always has channel 0,
and the cached running status is never SystemCommon. It holds for the fresh
parser and is preserved by Parse. -/
def ChannelInv (p : MidiParser) : Prop :=
  p.incoming_message_.channel < 16 ∧
  (p.incoming_message_.type = MidiMessageType.SystemCommon →
    p.incoming_message_.channel = 0) ∧
  p.running_status_ ≠ MidiMessageType.SystemCommon


/-- A concrete event carrying pitch-bend data bytes 0x00 and 0x40, used to
evaluate the pitch-bend decoding at the center position. -/
def pitchBendCenterEvent : MidiEvent :=
  { initMidiParser.incoming_message_ with
    type := MidiMessageType.PitchBend,
    data0 := 0x00,
    data1 := 0x40 }


/-- The parser state entered by a fresh parser on the exclusive-data start
byte 0xF0. -/
def sysexStart : MidiParser :=
  { initMidiParser with
    pstate_ := ParserState.ParserSysEx,
    incoming_message_ := { initMidiParser.incoming_message_ with
      type := MidiMessageType.SystemCommon,
      channel := 0,
      sc_type := SystemCommonType.SystemExclusive } }


/-- Parser state after the sysex start byte and the first 127 payload bytes of
the 200-byte round-trip run. -/
def c7P1 (bs : List Nat) : MidiParser :=
  { sysexStart with
    sysex_buf_ := ⟨bs.take 127⟩,
    sysex_chunk_len_ := 127 }

/-- Parser state right after the 128th payload byte forces the first chunk. -/
def c7P2 (bs : List Nat) : MidiParser :=
  { sysexStart with
    sysex_buf_ := ⟨bs.take 128⟩,
    sysex_chunk_len_ := 0,
    sysex_chunk_count_ := 1 }

/-- Parser state after all 200 payload bytes of the round-trip run. -/
def c7P3 (bs : List Nat) : MidiParser :=
  { sysexStart with
    sysex_buf_ := ⟨bs⟩,
    sysex_chunk_len_ := 72,
    sysex_chunk_count_ := 1 }

/-- Parser state after the terminator of the 200-byte round-trip run. -/
def c7P4 (bs : List Nat) : MidiParser :=
  { sysexStart with
    pstate_ := ParserState.ParserEmpty,
    sysex_buf_ := ⟨bs⟩,
    sysex_chunk_len_ := 0,
    sysex_chunk_count_ := 0 }

/-- The first completed event of the 200-byte round-trip run. -/
def c7EV1 : MidiEvent :=
  { sysexStart.incoming_message_ with
    sysex_chunk := ⟨SysexChunkType.SeqFirst, true, 128, 0⟩ }

/-- The second completed event of the 200-byte round-trip run. -/
def c7EV2 : MidiEvent :=
  { sysexStart.incoming_message_ with
    sysex_chunk := ⟨SysexChunkType.SeqLast, true, 72, 0⟩ }



lemma readBytesLoop_spec (n : Nat) : ∀ (c : SysexChunk) (d : List Nat),
    c.hasRingbuf = true →
    SysexChunk.readBytesLoop c ⟨d⟩ n =
      ((d.take (min n (min (c.size_ - c.bytes_read_) d.length)),
        { c with bytes_read_ :=
            c.bytes_read_ + min n (min (c.size_ - c.bytes_read_) d.length) },
        ⟨d.drop (min n (min (c.size_ - c.bytes_read_) d.length))⟩)) := by
  induction n with
  | zero =>
    intro c d _
    simp [SysexChunk.readBytesLoop]
  | succ n ih =>
    intro c d hrb
    rw [SysexChunk.readBytesLoop]
    by_cases hcr : SysexChunk.can_read c ⟨d⟩ = true
    · rw [if_pos hcr]
      unfold SysexChunk.can_read RingBuffer.readable at hcr
      simp only [Bool.and_eq_true, decide_eq_true_eq] at hcr
      obtain ⟨⟨hlt, -⟩, hpos⟩ := hcr
      obtain ⟨x, xs, rfl⟩ : ∃ x xs, d = x :: xs := by
        cases d with
        | nil => simp at hpos
        | cons a l => exact ⟨a, l, rfl⟩
      show (x :: (SysexChunk.readBytesLoop _ ⟨xs⟩ n).1,
        (SysexChunk.readBytesLoop _ ⟨xs⟩ n).2.1,
        (SysexChunk.readBytesLoop _ ⟨xs⟩ n).2.2) = _
      rw [ih { c with bytes_read_ := c.bytes_read_ + 1 } xs hrb]
      simp only [List.length_cons]
      have hm : min (n + 1) (min (c.size_ - c.bytes_read_) (xs.length + 1))
          = min n (min (c.size_ - (c.bytes_read_ + 1)) xs.length) + 1 := by
        omega
      rw [hm]
      simp only [List.take_succ_cons, List.drop_succ_cons, Prod.mk.injEq,
        SysexChunk.mk.injEq, RingBuffer.mk.injEq, true_and, and_true]
      omega
    · rw [if_neg hcr]
      unfold SysexChunk.can_read RingBuffer.readable at hcr
      simp only [Bool.and_eq_true, decide_eq_true_eq, not_and, not_lt] at hcr
      have hm : min (n + 1) (min (c.size_ - c.bytes_read_) d.length) = 0 := by
        by_cases h1 : c.bytes_read_ < c.size_
        · have := hcr ⟨h1, hrb⟩
          omega
        · omega
      rw [hm]
      simp



/-- C9: the Chunk View pull operations never touch the queue once the gate
closes. ReadByte returns the 0xff sentinel and consumes nothing exactly when
the consumed count has reached the declared length, or no queue is bound, or
the queue is empty; otherwise it destructively reads one byte and increments
the consumed count. ReadBytes with a null destination returns nothing with no
side effects; with a valid destination it copies exactly while the gate stays
open: the number copied is the minimum of the requested count, the remaining
declared length and the readable count. -/
theorem c9_chunk_pull_gating (c : SysexChunk) (d : List Nat) (n : Nat) :
    (c.size_ ≤ c.bytes_read_ ∨ c.hasRingbuf = false ∨ d = [] →
      c.ReadByte ⟨d⟩ = (0xff, c, ⟨d⟩)) ∧
    (∀ x xs, c.bytes_read_ < c.size_ → c.hasRingbuf = true → d = x :: xs →
      c.ReadByte ⟨d⟩ = (x, { c with bytes_read_ := c.bytes_read_ + 1 }, ⟨xs⟩)) ∧
    (c.ReadBytes true n ⟨d⟩ = ([], c, ⟨d⟩)) ∧
    (c.hasRingbuf = true →
      c.ReadBytes false n ⟨d⟩ =
        ((d.take (min n (min (c.size_ - c.bytes_read_) d.length)),
          { c with bytes_read_ :=
              c.bytes_read_ + min n (min (c.size_ - c.bytes_read_) d.length) },
          ⟨d.drop (min n (min (c.size_ - c.bytes_read_) d.length))⟩))) ∧
    (c.hasRingbuf = false → c.ReadBytes false n ⟨d⟩ = ([], c, ⟨d⟩)) := by
  refine ⟨?_, ?_, ?_, ?_, ?_⟩
  · intro h
    unfold SysexChunk.ReadByte
    rw [if_neg]
    unfold SysexChunk.can_read RingBuffer.readable
    simp only [Bool.and_eq_true, decide_eq_true_eq, not_and, not_lt]
    rcases h with h | h | h
    · intro hx; omega
    · intro hx; rw [h] at hx; simp at hx
    · intro hx; subst h; simp
  · intro x xs h1 h2 h3
    subst h3
    unfold SysexChunk.ReadByte
    rw [if_pos]
    · simp [RingBuffer.ImmediateRead]
    · unfold SysexChunk.can_read RingBuffer.readable
      simp [h1, h2]
  · unfold SysexChunk.ReadBytes
    simp
  · intro hrb
    unfold SysexChunk.ReadBytes
    rw [if_neg (by simp)]
    exact readBytesLoop_spec n c d hrb
  · intro hrb
    unfold SysexChunk.ReadBytes
    rw [if_neg (by simp)]
    induction n with
    | zero => simp [SysexChunk.readBytesLoop]
    | succ m _ =>
      rw [SysexChunk.readBytesLoop]
      rw [if_neg]
      unfold SysexChunk.can_read
      simp [hrb]

/-- C9 witness: evaluate the pull gating at a concrete chunk over a concrete
queue. -/
theorem c9_chunk_pull_gating_witness :
    (⟨SysexChunkType.Individual, true, 2, 0⟩ : SysexChunk).ReadBytes false 5 ⟨[7, 8, 9]⟩
      = ([7, 8], ⟨SysexChunkType.Individual, true, 2, 2⟩, ⟨[9]⟩) := by
  have h := (c9_chunk_pull_gating ⟨SysexChunkType.Individual, true, 2, 0⟩ [7, 8, 9] 5).2.2.2.1 rfl
  rw [h]
  decide



/-- C5: for data bytes in 0..127 the as-pitch-bend accessor returns exactly
(data1 shifted left by 7) plus (data0 - 8192) in exact integer arithmetic (the
int16_t store does not wrap on this range), and leaves the channel as is. -/
theorem c5_pitch_bend_decode (e : MidiEvent) (h0 : e.data0 < 128)
    (h1 : e.data1 < 128) :
    (e.AsPitchBend).value = (e.data1 : Int) * 128 + ((e.data0 : Int) - 8192) ∧
    (e.AsPitchBend).channel = e.channel := by
  unfold MidiEvent.AsPitchBend toInt16
  refine ⟨?_, rfl⟩
  simp only
  have h0i : (e.data0 : Int) < 128 := by exact_mod_cast h0
  have h1i : (e.data1 : Int) < 128 := by exact_mod_cast h1
  have h0n : (0 : Int) ≤ (e.data0 : Int) := Int.ofNat_nonneg _
  have h1n : (0 : Int) ≤ (e.data1 : Int) := Int.ofNat_nonneg _
  omega

/-- C5 witness: data bytes (0x00, 0x40) decode to pitch-bend value 0. -/
theorem c5_pitch_bend_decode_witness :
    pitchBendCenterEvent.data0 < 128 ∧ pitchBendCenterEvent.data1 < 128 ∧
    pitchBendCenterEvent.AsPitchBend.value = 0 := by
  refine ⟨by decide, by decide, ?_⟩
  have h := (c5_pitch_bend_decode pitchBendCenterEvent (by decide) (by decide)).1
  rw [h]
  decide

/-- C3 counterexample: the System-Real-Time byte 0xF8 completes an event whose
kind is SystemRealTime but whose channel is 8, not 0 (the low nibble of 0xF8),
refuting the claim that System-Real-Time events carry channel number 0. -/
theorem c3_counterexample_realtime_channel :
    ((initMidiParser.Parse 0xF8 false).2.2.map
      (fun e => (e.type, e.channel))) =
      some (MidiMessageType.SystemRealTime, 8) := by decide

/-- C4 counterexample: feeding 0xB0, 0x7A, 0x00 to a fresh parser yields one
completed ChannelMode event whose subkind is LocalControl (0x7A = 122, and
122 - 120 = 2), not AllSoundOff as the claim states. -/
theorem c4_counterexample_local_control :
    ((initMidiParser.feedAll [0xB0, 0x7A, 0x00]).2.map
      (fun e => (e.type, e.cm_type))) =
      [(MidiMessageType.ChannelMode, ChannelModeType.LocalControl)] := by decide

/-- C2: a System-Real-Time byte interleaved between a Note-On status byte and
its data bytes disturbs the pending message. Without the interleaved 0xF8 the
bytes 0x90, 0x40, 0x7F complete a NoteOn on channel 0; with 0xF8 interleaved
the real-time event is completed immediately (channel 8, the low nibble of
0xF8), and the eventually completed NoteOn keeps its kind and data bytes but
carries the corrupted channel 8 instead of 0, because the status-byte decode
overwrites the shared channel field before the type is known. -/
theorem c2_realtime_interleave_corrupts_channel :
    ((initMidiParser.feedAll [0x90, 0x40, 0x7F]).2.map
      (fun e => (e.type, e.channel, e.data0, e.data1)) =
      [(MidiMessageType.NoteOn, 0, 0x40, 0x7F)]) ∧
    ((initMidiParser.feedAll [0x90, 0xF8, 0x40, 0x7F]).2.map
      (fun e => (e.type, e.channel, e.data0, e.data1)) =
      [(MidiMessageType.SystemRealTime, 8, 0, 0),
       (MidiMessageType.NoteOn, 8, 0x40, 0x7F)]) := by decide

/-- C4 amended: in HasStatus with running status ControlChange, a data byte
whose masked value exceeds 119 reclassifies both the cached event kind and the
running status to ChannelMode, with the channel-mode subkind decoded as
data0 - 120; in particular 0xB0, 0x7A, 0x00 yields exactly one ChannelMode
event with subkind LocalControl (122 - 120 = 2), and first data byte 0x78
yields AllSoundOff. -/
theorem c4_amended_channel_mode_reclass (p : MidiParser) (b : Nat)
    (h1 : p.pstate_ = ParserState.ParserHasStatus)
    (h2 : p.running_status_ = MidiMessageType.ControlChange)
    (hb : b &&& 0x80 = 0) (hbig : 119 < b &&& 0x7F) :
    ((p.Parse b false).1.incoming_message_.type = MidiMessageType.ChannelMode ∧
     (p.Parse b false).1.running_status_ = MidiMessageType.ChannelMode ∧
     (p.Parse b false).1.incoming_message_.cm_type =
       ChannelModeType.fromNat ((b &&& 0x7F) - 120)) ∧
    ((initMidiParser.feedAll [0xB0, 0x7A, 0x00]).2.map
      (fun e => (e.type, e.cm_type)) =
      [(MidiMessageType.ChannelMode, ChannelModeType.LocalControl)]) ∧
    ((initMidiParser.feedAll [0xB0, 0x78, 0x00]).2.map
      (fun e => (e.type, e.cm_type)) =
      [(MidiMessageType.ChannelMode, ChannelModeType.AllSoundOff)]) := by
  refine ⟨?_, by decide, by decide⟩
  unfold MidiParser.Parse
  simp [h1, h2, hb, hbig, kStatusByteMask, kDataByteMask]



/-- C4 amended witness: the reclassification facts evaluated at the concrete
parser state reached after feeding 0xB0 to a fresh parser, with data byte
0x7A. -/
theorem c4_amended_channel_mode_reclass_witness :
    ((initMidiParser.Parse 0xB0 false).1.pstate_ = ParserState.ParserHasStatus
      ∧ (initMidiParser.Parse 0xB0 false).1.running_status_
        = MidiMessageType.ControlChange
      ∧ 0x7A &&& 0x80 = 0 ∧ 119 < 0x7A &&& 0x7F) ∧
    ((initMidiParser.Parse 0xB0 false).1.Parse 0x7A
        false).1.incoming_message_.cm_type = ChannelModeType.LocalControl := by
  refine ⟨⟨by decide, by decide, by decide, by decide⟩, ?_⟩
  have h := (c4_amended_channel_mode_reclass (initMidiParser.Parse 0xB0 false).1
    0x7A (by decide) (by decide) (by decide) (by decide)).1.2.2
  rw [h]
  decide

/-- C8: when the second data byte completes a message with running status
NoteOn and the (masked) byte is 0, the completed event kind is NoteOff while
the cached running status remains NoteOn; in particular the byte sequence
0x90, 0x40, 0x7F, 0x41, 0x00 fed to a fresh parser yields exactly two
completed events, NoteOn (note 0x40, velocity 0x7F) then NoteOff (note 0x41,
velocity 0), both on channel 0. -/
theorem c8_noteon_zero_velocity (p : MidiParser)
    (h1 : p.pstate_ = ParserState.ParserHasData0)
    (h2 : p.running_status_ = MidiMessageType.NoteOn) :
    ((p.Parse 0 false).2.1 = true ∧
     (∀ e, (p.Parse 0 false).2.2 = some e →
        e.type = MidiMessageType.NoteOff ∧ e.data1 = 0) ∧
     (p.Parse 0 false).1.running_status_ = MidiMessageType.NoteOn) ∧
    ((initMidiParser.feedAll [0x90, 0x40, 0x7F, 0x41, 0x00]).2.map
      (fun e => (e.type, e.channel, e.data0, e.data1)) =
      [(MidiMessageType.NoteOn, 0, 0x40, 0x7F),
       (MidiMessageType.NoteOff, 0, 0x41, 0)]) := by
  refine ⟨?_, by decide⟩
  unfold MidiParser.Parse
  simp [h1, h2, kStatusByteMask, kDataByteMask]

/-- C8 witness: the zero-velocity facts evaluated at the concrete parser state
reached after feeding 0x90 and 0x41 to a fresh parser. -/
theorem c8_noteon_zero_velocity_witness :
    ((initMidiParser.feedAll [0x90, 0x41]).1.pstate_
        = ParserState.ParserHasData0
      ∧ (initMidiParser.feedAll [0x90, 0x41]).1.running_status_
        = MidiMessageType.NoteOn) ∧
    ((initMidiParser.feedAll [0x90, 0x41]).1.Parse 0
        false).1.running_status_ = MidiMessageType.NoteOn := by
  refine ⟨⟨by decide, by decide⟩, ?_⟩
  exact (c8_noteon_zero_velocity (initMidiParser.feedAll [0x90, 0x41]).1
    (by decide) (by decide)).1.2.2



/-- C6: every produced chunk is tagged by the sequencing algorithm (first
chunk and message ending: Individual; first chunk, continuing: SeqFirst with
the sequence counter incremented; later chunk, ending: SeqLast with the
counter reset to 0; later chunk, continuing: SeqIntermediate with the counter
incremented), its declared length is exactly the payload byte count
accumulated since the previous chunk boundary (the accumulator is then reset
to 0), and a chunk produced mid-payload happens exactly when the accumulator
reaches 128, with declared length 128. -/
theorem c6_chunk_sequencing (p : MidiParser) (b : Nat) (ended : Bool)
    (hcl : p.sysex_chunk_len_ < SYSEX_BUF_CHUNK_LEN) :
    (∃ e, (p.produceSysexChunk false ended).2 = some e ∧
      e.sysex_chunk.size_ = p.sysex_chunk_len_ ∧
      (p.sysex_chunk_count_ = 0 → ended = true →
        e.sysex_chunk.type_ = SysexChunkType.Individual ∧
        (p.produceSysexChunk false ended).1.sysex_chunk_count_ = 0) ∧
      (p.sysex_chunk_count_ = 0 → ended = false →
        e.sysex_chunk.type_ = SysexChunkType.SeqFirst ∧
        (p.produceSysexChunk false ended).1.sysex_chunk_count_
          = p.sysex_chunk_count_ + 1) ∧
      (0 < p.sysex_chunk_count_ → ended = true →
        e.sysex_chunk.type_ = SysexChunkType.SeqLast ∧
        (p.produceSysexChunk false ended).1.sysex_chunk_count_ = 0) ∧
      (0 < p.sysex_chunk_count_ → ended = false →
        e.sysex_chunk.type_ = SysexChunkType.SeqIntermediate ∧
        (p.produceSysexChunk false ended).1.sysex_chunk_count_
          = p.sysex_chunk_count_ + 1)) ∧
    ((p.produceSysexChunk false ended).1.sysex_chunk_len_ = 0) ∧
    (p.pstate_ = ParserState.ParserSysEx → b ≠ 0xF7 →
     p.sysex_overflow_ = false → 0 < p.sysex_buf_.writable →
      (((p.Parse b false).2.1 = true) ↔
        (p.sysex_chunk_len_ + 1 = SYSEX_BUF_CHUNK_LEN)) ∧
      (∀ e, (p.Parse b false).2.2 = some e →
        e.sysex_chunk.size_ = SYSEX_BUF_CHUNK_LEN)) := by
  refine ⟨?_, ?_, ?_⟩
  · unfold MidiParser.produceSysexChunk
    by_cases hc : p.sysex_chunk_count_ = 0 <;> cases ended <;>
      simp [hc]
  · unfold MidiParser.produceSysexChunk
    by_cases hc : p.sysex_chunk_count_ = 0 <;> cases ended <;> simp [hc]
  · intro hst hb hovf hw
    by_cases hfull : SYSEX_BUF_CHUNK_LEN ≤ p.sysex_chunk_len_ + 1
    · have h128 : p.sysex_chunk_len_ + 1 = SYSEX_BUF_CHUNK_LEN := by
        unfold SYSEX_BUF_CHUNK_LEN at *; omega
      unfold MidiParser.Parse MidiParser.produceSysexChunk
      by_cases hc : p.sysex_chunk_count_ = 0 <;>
        simp [hst, hb, hovf, hw, hfull, h128, hc]
    · unfold MidiParser.Parse
      simp [hst, hb, hovf, hw, hfull]
      unfold SYSEX_BUF_CHUNK_LEN at *
      omega

/-- C6 witness: the sequencing facts evaluated at the parser state just after
a fresh parser enters a sysex message with one buffered payload byte. -/
theorem c6_chunk_sequencing_witness :
    ((initMidiParser.feedAll [0xF0, 0x11]).1.sysex_chunk_len_
        < SYSEX_BUF_CHUNK_LEN) ∧
    ((initMidiParser.feedAll [0xF0, 0x11]).1.produceSysexChunk false
        true).1.sysex_chunk_len_ = 0 := by
  refine ⟨by decide, ?_⟩
  exact (c6_chunk_sequencing (initMidiParser.feedAll [0xF0, 0x11]).1 0x12 true
    (by decide)).2.1

/-- C10: Parse with a null event pointer performs exactly the same state
transition and returns the same did-parse flag as Parse with a valid pointer;
the null pointer only suppresses writing the completed event out. -/
theorem c10_null_event_out_frame (p : MidiParser) (b : Nat) :
    (p.Parse b true).1 = (p.Parse b false).1 ∧
    (p.Parse b true).2.1 = (p.Parse b false).2.1 ∧
    (p.Parse b true).2.2 = none := by
  have h : p.Parse b true = ((p.Parse b false).1, (p.Parse b false).2.1, none) := by
    obtain ⟨st, msg, rs, buf, cl, cc, ovf⟩ := p
    unfold MidiParser.Parse MidiParser.produceSysexChunk
    by_cases hs : b &&& kStatusByteMask = 0 <;>
      cases st <;>
        simp [hs] <;> split_ifs <;> rfl
  rw [h]
  exact ⟨rfl, rfl, rfl⟩



lemma nibble_le_seven (b : Nat) : (b &&& kMessageMask) >>> 4 ≤ 7 := by
  have h : b &&& kMessageMask ≤ 0x70 := Nat.and_le_right
  rw [Nat.shiftRight_eq_div_pow]
  omega

lemma fromNat_toNat_lt_of_le_seven (n : Nat) (h : n ≤ 7) :
    (MidiMessageType.fromNat n).toNat < 10 := by
  interval_cases n <;> decide

lemma fromNat_ne_srt_of_le_seven (n : Nat) (h : n ≤ 7) :
    MidiMessageType.fromNat n ≠ MidiMessageType.SystemRealTime := by
  interval_cases n <;> decide

lemma parse_channelInv (p : MidiParser) (b : Nat) (hInv : ChannelInv p) :
    ChannelInv (p.Parse b false).1 ∧
    ∀ e, (p.Parse b false).2.2 = some e →
      e.channel < 16 ∧
      (e.type = MidiMessageType.SystemCommon → e.channel = 0) := by
  obtain ⟨h16, hSC, hRS⟩ := hInv
  have hch15 : b &&& kChannelMask ≤ 15 := Nat.and_le_right
  have hnib : (MidiMessageType.fromNat ((b &&& kMessageMask) >>> 4)).toNat < 10 :=
    fromNat_toNat_lt_of_le_seven _ (nibble_le_seven b)
  unfold MidiParser.Parse
  cases hps : p.pstate_ <;>
    by_cases hs : b &&& kStatusByteMask = 0 <;>
      simp [hps, hs, ChannelInv, kChannelMask] at * <;>
        split_ifs <;>
          simp_all [MidiParser.produceSysexChunk, ChannelInv, MidiMessageType.toNat] <;>
            omega



lemma parse_srt_immediate (p : MidiParser) (b : Nat) (hlo : 0xF8 ≤ b)
    (hhi : b ≤ 0xFF) (hst : p.pstate_ ≠ ParserState.ParserSysEx) :
    (p.Parse b false).2.1 = true ∧
    ∀ e, (p.Parse b false).2.2 = some e →
      e.type = MidiMessageType.SystemRealTime ∧ e.channel = b &&& 0x0F ∧
      8 ≤ e.channel := by
  interval_cases b <;>
    cases hps : p.pstate_ <;>
      first
      | exact absurd hps hst
      | (unfold MidiParser.Parse
         simp +decide [hps, kStatusByteMask, kChannelMask, kMessageMask,
           kSystemRealTimeMask, MidiMessageType.fromNat, MidiMessageType.toNat])

lemma parse_databyte_channel (p : MidiParser) (b : Nat)
    (hs : b &&& kStatusByteMask = 0) :
    (p.Parse b false).1.incoming_message_.channel
      = p.incoming_message_.channel := by
  have hb7 : b ≠ 0xF7 := by
    intro h
    subst h
    simp [kStatusByteMask] at hs
  unfold MidiParser.Parse
  cases hps : p.pstate_ <;>
    simp [hps, hs, hb7] <;>
      split_ifs <;>
        simp_all [MidiParser.produceSysexChunk]

lemma parse_voice_status_channel (p : MidiParser) (b : Nat)
    (hs : b &&& kStatusByteMask ≠ 0)
    (hst : p.pstate_ ≠ ParserState.ParserSysEx)
    (h248 : b &&& 0xF8 ≠ 0xF8)
    (hnsc : MidiMessageType.fromNat ((b &&& kMessageMask) >>> 4)
      ≠ MidiMessageType.SystemCommon) :
    (p.Parse b false).1.incoming_message_.channel = b &&& kChannelMask ∧
    (p.Parse b false).1.running_status_
      = MidiMessageType.fromNat ((b &&& kMessageMask) >>> 4) ∧
    (p.Parse b false).1.pstate_ = ParserState.ParserHasStatus := by
  have hnib : (MidiMessageType.fromNat ((b &&& kMessageMask) >>> 4)).toNat < 10 :=
    fromNat_toNat_lt_of_le_seven _ (nibble_le_seven b)
  have hnsrt : MidiMessageType.fromNat ((b &&& kMessageMask) >>> 4)
      ≠ MidiMessageType.SystemRealTime :=
    fromNat_ne_srt_of_le_seven _ (nibble_le_seven b)
  unfold MidiParser.Parse
  cases hps : p.pstate_ <;>
    simp_all [MidiMessageType.toNat]



/-- C3 amended: every completed SystemCommon event carries channel 0 and every
completed event carries a channel below 16 (given the channel invariant, which
Parse preserves); a System-Real-Time status byte (0xF8..0xFF) completes an
immediate event whose channel is the low 4 bits of that byte (a value 8..15,
not 0); data bytes never change the cached channel; and a channel voice or
mode status byte sets the cached channel to its low 4 bits while caching the
decoded kind as the running status. -/
theorem c3_amended_channel_decoding (p : MidiParser) (b : Nat)
    (hInv : ChannelInv p) :
    ChannelInv (p.Parse b false).1 ∧
    (∀ e, (p.Parse b false).2.2 = some e →
      e.channel < 16 ∧
      (e.type = MidiMessageType.SystemCommon → e.channel = 0)) ∧
    (0xF8 ≤ b → b ≤ 0xFF → p.pstate_ ≠ ParserState.ParserSysEx →
      (p.Parse b false).2.1 = true ∧
      ∀ e, (p.Parse b false).2.2 = some e →
        e.type = MidiMessageType.SystemRealTime ∧ e.channel = b &&& 0x0F ∧
        8 ≤ e.channel) ∧
    (b &&& kStatusByteMask = 0 →
      (p.Parse b false).1.incoming_message_.channel
        = p.incoming_message_.channel) ∧
    (b &&& kStatusByteMask ≠ 0 → p.pstate_ ≠ ParserState.ParserSysEx →
      b &&& 0xF8 ≠ 0xF8 →
      MidiMessageType.fromNat ((b &&& kMessageMask) >>> 4)
        ≠ MidiMessageType.SystemCommon →
      (p.Parse b false).1.incoming_message_.channel = b &&& kChannelMask ∧
      (p.Parse b false).1.running_status_
        = MidiMessageType.fromNat ((b &&& kMessageMask) >>> 4) ∧
      (p.Parse b false).1.pstate_ = ParserState.ParserHasStatus) :=
  ⟨(parse_channelInv p b hInv).1, (parse_channelInv p b hInv).2,
   fun h1 h2 h3 => parse_srt_immediate p b h1 h2 h3,
   fun h => parse_databyte_channel p b h,
   fun h1 h2 h3 h4 => parse_voice_status_channel p b h1 h2 h3 h4⟩

/-- C3 amended witness: the channel invariant holds for the fresh parser, and
the status byte 0x95 (a NoteOn on channel 5) sets the cached channel to 5. -/
theorem c3_amended_channel_decoding_witness :
    ChannelInv initMidiParser ∧
    (initMidiParser.Parse 0x95 false).1.incoming_message_.channel
      = 0x95 &&& kChannelMask := by
  have hInv : ChannelInv initMidiParser := by
    unfold ChannelInv
    exact ⟨by decide, by decide, by decide⟩
  exact ⟨hInv,
    ((c3_amended_channel_decoding initMidiParser 0x95 hInv).2.2.2.2
      (by decide) (by decide) (by decide) (by decide)).1⟩



lemma parse_sysex_payload_step (p : MidiParser) (b : Nat)
    (hps : p.pstate_ = ParserState.ParserSysEx) (hb : b ≠ 0xF7)
    (hovf : p.sysex_overflow_ = false)
    (hw : p.sysex_buf_.data.length < SYSEX_BUF_MAX_SIZE)
    (hcl : p.sysex_chunk_len_ + 1 < SYSEX_BUF_CHUNK_LEN) :
    p.Parse b false = ({ p with
      sysex_buf_ := ⟨p.sysex_buf_.data ++ [b]⟩,
      sysex_chunk_len_ := p.sysex_chunk_len_ + 1 }, false, none) := by
  have hw' : 0 < p.sysex_buf_.writable := by
    unfold RingBuffer.writable SYSEX_BUF_MAX_SIZE at *
    omega
  have hcl' : ¬ SYSEX_BUF_CHUNK_LEN ≤ p.sysex_chunk_len_ + 1 := by omega
  unfold MidiParser.Parse
  simp [hps, hb, hovf, hw', hcl', RingBuffer.Write]

lemma parse_sysex_boundary_step (p : MidiParser) (b : Nat)
    (hps : p.pstate_ = ParserState.ParserSysEx) (hb : b ≠ 0xF7)
    (hovf : p.sysex_overflow_ = false)
    (hw : p.sysex_buf_.data.length < SYSEX_BUF_MAX_SIZE)
    (hcl : p.sysex_chunk_len_ + 1 = SYSEX_BUF_CHUNK_LEN) :
    p.Parse b false = ({ p with
      sysex_buf_ := ⟨p.sysex_buf_.data ++ [b]⟩,
      sysex_chunk_len_ := 0,
      sysex_chunk_count_ :=
        if p.sysex_chunk_count_ = 0 then 1 else p.sysex_chunk_count_ + 1 },
      true,
      some { p.incoming_message_ with sysex_chunk :=
        ⟨if p.sysex_chunk_count_ = 0 then SysexChunkType.SeqFirst
          else SysexChunkType.SeqIntermediate,
         true, SYSEX_BUF_CHUNK_LEN, 0⟩ }) := by
  have hw' : 0 < p.sysex_buf_.writable := by
    unfold RingBuffer.writable SYSEX_BUF_MAX_SIZE at *
    omega
  have hcl' : SYSEX_BUF_CHUNK_LEN ≤ p.sysex_chunk_len_ + 1 := by omega
  unfold MidiParser.Parse MidiParser.produceSysexChunk
  by_cases hc : p.sysex_chunk_count_ = 0 <;>
    simp [hps, hb, hovf, hw', hcl', hcl, hc, RingBuffer.Write]

lemma parse_sysex_terminator (p : MidiParser)
    (hps : p.pstate_ = ParserState.ParserSysEx)
    (hovf : p.sysex_overflow_ = false) :
    p.Parse 0xF7 false = ({ p with
      pstate_ := ParserState.ParserEmpty,
      sysex_chunk_len_ := 0,
      sysex_chunk_count_ := 0 },
      true,
      some { p.incoming_message_ with sysex_chunk :=
        ⟨if p.sysex_chunk_count_ = 0 then SysexChunkType.Individual
          else SysexChunkType.SeqLast,
         true, p.sysex_chunk_len_, 0⟩ }) := by
  unfold MidiParser.Parse MidiParser.produceSysexChunk
  by_cases hc : p.sysex_chunk_count_ = 0 <;>
    simp [hps, hovf, hc]

lemma parse_sysex_overflow_step (p : MidiParser) (b : Nat)
    (hps : p.pstate_ = ParserState.ParserSysEx) (hb : b ≠ 0xF7)
    (hcase : p.sysex_overflow_ = true
      ∨ SYSEX_BUF_MAX_SIZE ≤ p.sysex_buf_.data.length) :
    p.Parse b false = ({ p with sysex_overflow_ := true }, false, none) := by
  unfold MidiParser.Parse
  rcases hcase with h | h
  · simp [hps, hb, h]
  · have hw' : ¬ 0 < p.sysex_buf_.writable := by
      unfold RingBuffer.writable SYSEX_BUF_MAX_SIZE at *
      omega
    simp [hps, hb, hw']

lemma parse_sysex_overflow_terminator (p : MidiParser)
    (hps : p.pstate_ = ParserState.ParserSysEx)
    (hovf : p.sysex_overflow_ = true) :
    p.Parse 0xF7 false = ({ p with
      sysex_buf_ := ⟨[]⟩,
      sysex_chunk_len_ := 0,
      sysex_chunk_count_ := 0,
      sysex_overflow_ := false }, false, none) := by
  unfold MidiParser.Parse
  simp [hps, hovf, RingBuffer.Flush]

lemma feedAll_append (p : MidiParser) (xs ys : List Nat) :
    p.feedAll (xs ++ ys) =
      (((p.feedAll xs).1.feedAll ys).1,
       (p.feedAll xs).2 ++ ((p.feedAll xs).1.feedAll ys).2) := by
  induction xs generalizing p with
  | nil => simp [MidiParser.feedAll]
  | cons b rest ih =>
    simp only [List.cons_append, MidiParser.feedAll, List.append_eq]
    rw [ih]
    simp [List.append_assoc]

lemma feedAll_cons (p : MidiParser) (b : Nat) (rest : List Nat) :
    p.feedAll (b :: rest) =
      (((p.Parse b false).1.feedAll rest).1,
       (p.Parse b false).2.2.toList ++ ((p.Parse b false).1.feedAll rest).2) :=
  rfl

lemma feed_payload_no_chunk (xs : List Nat) : ∀ p : MidiParser,
    (∀ b ∈ xs, b ≠ 0xF7) → p.pstate_ = ParserState.ParserSysEx →
    p.sysex_overflow_ = false →
    p.sysex_chunk_len_ + xs.length < SYSEX_BUF_CHUNK_LEN →
    p.sysex_buf_.data.length + xs.length ≤ SYSEX_BUF_MAX_SIZE →
    p.feedAll xs = ({ p with
      sysex_buf_ := ⟨p.sysex_buf_.data ++ xs⟩,
      sysex_chunk_len_ := p.sysex_chunk_len_ + xs.length }, []) := by
  induction xs with
  | nil =>
    intro p _ _ _ _ _
    simp [MidiParser.feedAll]
  | cons b rest ih =>
    intro p hne hps hovf hcl hbuf
    have hb : b ≠ 0xF7 := hne b (by simp)
    have hstep := parse_sysex_payload_step p b hps hb hovf
      (by simp at hbuf ⊢; omega) (by simp at hcl ⊢; omega)
    rw [feedAll_cons, hstep]
    simp only
    rw [ih ({ p with
        sysex_buf_ := ⟨p.sysex_buf_.data ++ [b]⟩,
        sysex_chunk_len_ := p.sysex_chunk_len_ + 1 })
      (fun x hx => hne x (by simp [hx])) hps hovf
      (by simp at hcl ⊢; omega) (by simp at hbuf ⊢; omega)]
    simp [List.append_assoc, MidiParser.mk.injEq]
    omega



lemma feed_payload_exists (xs : List Nat) : ∀ p : MidiParser,
    (∀ b ∈ xs, b ≠ 0xF7) → p.pstate_ = ParserState.ParserSysEx →
    p.sysex_overflow_ = false →
    p.sysex_chunk_len_ < SYSEX_BUF_CHUNK_LEN →
    p.sysex_buf_.data.length + xs.length ≤ SYSEX_BUF_MAX_SIZE →
    ∃ cl cc evs, cl < SYSEX_BUF_CHUNK_LEN ∧
      p.feedAll xs = ({ p with
        sysex_buf_ := ⟨p.sysex_buf_.data ++ xs⟩,
        sysex_chunk_len_ := cl,
        sysex_chunk_count_ := cc }, evs) := by
  induction xs with
  | nil =>
    intro p _ hps hovf hcl hbuf
    exact ⟨p.sysex_chunk_len_, p.sysex_chunk_count_, [], hcl,
      by simp [MidiParser.feedAll]⟩
  | cons b rest ih =>
    intro p hne hps hovf hcl hbuf
    have hb : b ≠ 0xF7 := hne b (by simp)
    have hwlt : p.sysex_buf_.data.length < SYSEX_BUF_MAX_SIZE := by
      simp at hbuf
      omega
    by_cases hc : p.sysex_chunk_len_ + 1 = SYSEX_BUF_CHUNK_LEN
    · have hstep := parse_sysex_boundary_step p b hps hb hovf hwlt hc
      obtain ⟨cl, cc, evs, hcl2, hfeed⟩ := ih ({ p with
          sysex_buf_ := ⟨p.sysex_buf_.data ++ [b]⟩,
          sysex_chunk_len_ := 0,
          sysex_chunk_count_ :=
            if p.sysex_chunk_count_ = 0 then 1 else p.sysex_chunk_count_ + 1 })
        (fun x hx => hne x (by simp [hx])) hps hovf
        (by simp [SYSEX_BUF_CHUNK_LEN])
        (by simp at hbuf ⊢; omega)
      refine ⟨cl, cc,
        ({ p.incoming_message_ with sysex_chunk :=
          ⟨if p.sysex_chunk_count_ = 0 then SysexChunkType.SeqFirst
            else SysexChunkType.SeqIntermediate,
           true, SYSEX_BUF_CHUNK_LEN, 0⟩ }) :: evs, hcl2, ?_⟩
      rw [feedAll_cons, hstep]
      simp only [hfeed]
      simp [List.append_assoc]
    · have hcl1 : p.sysex_chunk_len_ + 1 < SYSEX_BUF_CHUNK_LEN := by omega
      have hstep := parse_sysex_payload_step p b hps hb hovf hwlt hcl1
      obtain ⟨cl, cc, evs, hcl2, hfeed⟩ := ih ({ p with
          sysex_buf_ := ⟨p.sysex_buf_.data ++ [b]⟩,
          sysex_chunk_len_ := p.sysex_chunk_len_ + 1 })
        (fun x hx => hne x (by simp [hx])) hps hovf hcl1
        (by simp at hbuf ⊢; omega)
      refine ⟨cl, cc, evs, hcl2, ?_⟩
      rw [feedAll_cons, hstep]
      simp only [hfeed]
      simp [List.append_assoc]




/-- C1: against the claim, the terminator byte 0xF7 arriving after an
exclusive-data buffer overflow does flush the queue (readable count 0), clear
the chunk-length, chunk-sequence and overflow bookkeeping and produce no event
(Parse returns false), but it leaves the parser in the SysEx state instead of
returning it to Empty, so a following exclusive-data start byte 0xF0 is
swallowed as payload instead of parsing cleanly. The run feeds 0xF0, then
1025 payload bytes (one more than the queue capacity, so overflow occurs),
then 0xF7, then 0xF0. -/
theorem c1_overflow_terminator_code_bug :
    ((initMidiParser.feedAll (0xF0 :: List.replicate 1025 0x41)).1.sysex_overflow_
        = true) ∧
    ((initMidiParser.feedAll
        (0xF0 :: List.replicate 1025 0x41)).1.Parse 0xF7 false).2.1 = false ∧
    ((initMidiParser.feedAll
        (0xF0 :: List.replicate 1025 0x41)).1.Parse 0xF7 false).2.2 = none ∧
    ((initMidiParser.feedAll
        (0xF0 :: List.replicate 1025 0x41)).1.Parse 0xF7
          false).1.sysex_buf_.readable = 0 ∧
    ((initMidiParser.feedAll
        (0xF0 :: List.replicate 1025 0x41)).1.Parse 0xF7
          false).1.sysex_chunk_len_ = 0 ∧
    ((initMidiParser.feedAll
        (0xF0 :: List.replicate 1025 0x41)).1.Parse 0xF7
          false).1.sysex_chunk_count_ = 0 ∧
    ((initMidiParser.feedAll
        (0xF0 :: List.replicate 1025 0x41)).1.Parse 0xF7
          false).1.sysex_overflow_ = false ∧
    ((initMidiParser.feedAll
        (0xF0 :: List.replicate 1025 0x41)).1.Parse 0xF7
          false).1.pstate_ = ParserState.ParserSysEx ∧
    (((initMidiParser.feedAll
        (0xF0 :: List.replicate 1025 0x41)).1.Parse 0xF7
          false).1.Parse 0xF0 false).1.sysex_buf_.data = [0xF0] ∧
    (((initMidiParser.feedAll
        (0xF0 :: List.replicate 1025 0x41)).1.Parse 0xF7
          false).1.Parse 0xF0 false).1.pstate_ = ParserState.ParserSysEx := by
  have h0 : initMidiParser.Parse 0xF0 false = (sysexStart, false, none) := by
    decide
  have hsplit : List.replicate 1025 0x41
      = List.replicate 1024 0x41 ++ [(0x41 : Nat)] := by
    have h : (1025 : Nat) = 1024 + 1 := by norm_num
    rw [h, List.replicate_succ']
  obtain ⟨cl, cc, evs, hcl, hfeed⟩ := feed_payload_exists
    (List.replicate 1024 0x41) sysexStart
    (by intro x hx; rw [List.eq_of_mem_replicate hx]; decide)
    rfl rfl (by decide)
    (by simp [sysexStart, initMidiParser, SYSEX_BUF_MAX_SIZE])
  have hhuge : SYSEX_BUF_MAX_SIZE ≤
      ({ sysexStart with
        sysex_buf_ := ⟨sysexStart.sysex_buf_.data ++ List.replicate 1024 0x41⟩,
        sysex_chunk_len_ := cl,
        sysex_chunk_count_ := cc } : MidiParser).sysex_buf_.data.length := by
    simp [sysexStart, initMidiParser, SYSEX_BUF_MAX_SIZE]
  have hrun : (initMidiParser.feedAll (0xF0 :: List.replicate 1025 0x41)).1
      = { sysexStart with
          sysex_buf_ := ⟨sysexStart.sysex_buf_.data ++ List.replicate 1024 0x41⟩,
          sysex_chunk_len_ := cl,
          sysex_chunk_count_ := cc,
          sysex_overflow_ := true } := by
    calc (initMidiParser.feedAll (0xF0 :: List.replicate 1025 0x41)).1
        = ((initMidiParser.Parse 0xF0 false).1.feedAll
            (List.replicate 1025 0x41)).1 := by rw [feedAll_cons]
      _ = (sysexStart.feedAll (List.replicate 1025 0x41)).1 := by rw [h0]
      _ = ((sysexStart.feedAll (List.replicate 1024 0x41)).1.feedAll
            [(0x41 : Nat)]).1 := by rw [hsplit, feedAll_append]
      _ = (({ sysexStart with
              sysex_buf_ :=
                ⟨sysexStart.sysex_buf_.data ++ List.replicate 1024 0x41⟩,
              sysex_chunk_len_ := cl,
              sysex_chunk_count_ := cc } : MidiParser).feedAll
            [(0x41 : Nat)]).1 := by rw [hfeed]
      _ = { sysexStart with
            sysex_buf_ :=
              ⟨sysexStart.sysex_buf_.data ++ List.replicate 1024 0x41⟩,
            sysex_chunk_len_ := cl,
            sysex_chunk_count_ := cc,
            sysex_overflow_ := true } := by
          rw [feedAll_cons,
            parse_sysex_overflow_step _ 0x41 rfl (by decide) (Or.inr hhuge)]
          rfl
  rw [hrun]
  rw [parse_sysex_overflow_terminator
    ({ sysexStart with
        sysex_buf_ := ⟨sysexStart.sysex_buf_.data ++ List.replicate 1024 0x41⟩,
        sysex_chunk_len_ := cl,
        sysex_chunk_count_ := cc,
        sysex_overflow_ := true } : MidiParser) rfl rfl]
  refine ⟨rfl, rfl, rfl, rfl, rfl, rfl, rfl, rfl, ?_, ?_⟩
  · show (sysexStart.Parse 0xF0 false).1.sysex_buf_.data = [0xF0]
    decide
  · show (sysexStart.Parse 0xF0 false).1.pstate_ = ParserState.ParserSysEx
    decide



lemma feedAll_fst_cons (p : MidiParser) (b : Nat) (rest : List Nat) :
    (p.feedAll (b :: rest)).1 = ((p.Parse b false).1.feedAll rest).1 := rfl

lemma feedAll_snd_cons (p : MidiParser) (b : Nat) (rest : List Nat) :
    (p.feedAll (b :: rest)).2
      = (p.Parse b false).2.2.toList ++ ((p.Parse b false).1.feedAll rest).2 :=
  rfl

lemma feedAll_fst_append (p : MidiParser) (xs ys : List Nat) :
    (p.feedAll (xs ++ ys)).1 = ((p.feedAll xs).1.feedAll ys).1 := by
  rw [feedAll_append]

lemma feedAll_snd_append (p : MidiParser) (xs ys : List Nat) :
    (p.feedAll (xs ++ ys)).2
      = (p.feedAll xs).2 ++ ((p.feedAll xs).1.feedAll ys).2 := by
  rw [feedAll_append]

/-- C7: feeding a fresh parser 0xF0, then 200 arbitrary payload bytes, then
0xF7 produces exactly two completed events, a SequenceFirst chunk of declared
length 128 then a SequenceLast chunk of declared length 72, and pulling all
bytes from the first chunk and then from the second returns exactly the 200
payload bytes in order. -/
theorem c7_sysex_roundtrip_200 (bs : List Nat) (hlen : bs.length = 200)
    (hne : ∀ b ∈ bs, b ≠ 0xF7) :
    ((initMidiParser.feedAll (0xF0 :: (bs ++ [0xF7]))).2.map
        (fun e => (e.sysex_chunk.type_, e.sysex_chunk.size_)))
      = [(SysexChunkType.SeqFirst, 128), (SysexChunkType.SeqLast, 72)] ∧
    ∀ e1 e2, (initMidiParser.feedAll (0xF0 :: (bs ++ [0xF7]))).2 = [e1, e2] →
      (e1.sysex_chunk.ReadBytes false 128
          (initMidiParser.feedAll (0xF0 :: (bs ++ [0xF7]))).1.sysex_buf_).1 ++
      (e2.sysex_chunk.ReadBytes false 72
          (e1.sysex_chunk.ReadBytes false 128
            (initMidiParser.feedAll
              (0xF0 :: (bs ++ [0xF7]))).1.sysex_buf_).2.2).1
        = bs := by
  have h127 : 127 < bs.length := by omega
  have h0 : initMidiParser.Parse 0xF0 false = (sysexStart, false, none) := by
    decide
  have hsplit : bs = bs.take 127 ++ bs[127] :: bs.drop 128 := by
    conv_lhs => rw [← List.take_append_drop 127 bs]
    rw [List.drop_eq_getElem_cons h127]
  have htake128 : bs.take 127 ++ [bs[127]] = bs.take 128 := by
    conv_rhs => rw [show (128 : Nat) = 127 + 1 from rfl, List.take_succ]
    rw [List.getElem?_eq_getElem h127]
    rfl
  have hlen127 : (bs.take 127).length = 127 := by simp [hlen]
  have hlen72 : (bs.drop 128).length = 72 := by simp [hlen]
  have hb127 : bs[127] ≠ 0xF7 := hne _ (bs.getElem_mem h127)
  have hc1 : sysexStart.sysex_chunk_len_ + (bs.take 127).length
      < SYSEX_BUF_CHUNK_LEN := by
    rw [hlen127]; decide
  have hc2 : sysexStart.sysex_buf_.data.length + (bs.take 127).length
      ≤ SYSEX_BUF_MAX_SIZE := by
    rw [hlen127]; decide
  have h1 : sysexStart.feedAll (bs.take 127) = (c7P1 bs, []) := by
    rw [feed_payload_no_chunk (bs.take 127) sysexStart
      (fun x hx => hne x (List.take_subset 127 bs hx)) rfl rfl hc1 hc2,
      hlen127]
    rfl
  have hc3 : (c7P1 bs).sysex_buf_.data.length < SYSEX_BUF_MAX_SIZE := by
    rw [show (c7P1 bs).sysex_buf_.data.length = (bs.take 127).length from rfl,
      hlen127]
    decide
  have h2 : (c7P1 bs).Parse bs[127] false
      = (c7P2 bs, true, some c7EV1) := by
    rw [parse_sysex_boundary_step (c7P1 bs) bs[127] rfl hb127 rfl hc3 rfl]
    rw [show (c7P1 bs).sysex_buf_.data = bs.take 127 from rfl, htake128]
    rfl
  have hc4 : (c7P2 bs).sysex_chunk_len_ + (bs.drop 128).length
      < SYSEX_BUF_CHUNK_LEN := by
    rw [show (c7P2 bs).sysex_chunk_len_ = 0 from rfl, hlen72]
    decide
  have hc5 : (c7P2 bs).sysex_buf_.data.length + (bs.drop 128).length
      ≤ SYSEX_BUF_MAX_SIZE := by
    rw [show (c7P2 bs).sysex_buf_.data.length = (bs.take 128).length from rfl,
      List.length_take, hlen, hlen72]
    decide
  have h3 : (c7P2 bs).feedAll (bs.drop 128) = (c7P3 bs, []) := by
    rw [feed_payload_no_chunk (bs.drop 128) (c7P2 bs)
      (fun x hx => hne x (List.drop_subset 128 bs hx)) rfl rfl hc4 hc5,
      hlen72]
    rw [show (c7P2 bs).sysex_buf_.data = bs.take 128 from rfl,
      List.take_append_drop]
    rfl
  have h4 : (c7P3 bs).Parse 0xF7 false = (c7P4 bs, true, some c7EV2) := by
    rw [parse_sysex_terminator (c7P3 bs) rfl rfl]
    rfl
  have hbs1 : (sysexStart.feedAll bs).1 = c7P3 bs := by
    calc (sysexStart.feedAll bs).1
        = (sysexStart.feedAll
            (bs.take 127 ++ bs[127] :: bs.drop 128)).1 := by rw [← hsplit]
      _ = ((sysexStart.feedAll (bs.take 127)).1.feedAll
            (bs[127] :: bs.drop 128)).1 := feedAll_fst_append _ _ _
      _ = c7P3 bs := by
          rw [h1, feedAll_fst_cons, h2, h3]
  have hbs2 : (sysexStart.feedAll bs).2 = [c7EV1] := by
    calc (sysexStart.feedAll bs).2
        = (sysexStart.feedAll
            (bs.take 127 ++ bs[127] :: bs.drop 128)).2 := by rw [← hsplit]
      _ = (sysexStart.feedAll (bs.take 127)).2
          ++ ((sysexStart.feedAll (bs.take 127)).1.feedAll
            (bs[127] :: bs.drop 128)).2 := feedAll_snd_append _ _ _
      _ = [c7EV1] := by
          rw [h1, feedAll_snd_cons, h2, h3]
          rfl
  have hstate : (initMidiParser.feedAll (0xF0 :: (bs ++ [0xF7]))).1
      = c7P4 bs := by
    calc (initMidiParser.feedAll (0xF0 :: (bs ++ [0xF7]))).1
        = ((initMidiParser.Parse 0xF0 false).1.feedAll
            (bs ++ [0xF7])).1 := feedAll_fst_cons _ _ _
      _ = (sysexStart.feedAll (bs ++ [0xF7])).1 := by rw [h0]
      _ = ((sysexStart.feedAll bs).1.feedAll [0xF7]).1 :=
          feedAll_fst_append _ _ _
      _ = c7P4 bs := by
          rw [hbs1, feedAll_fst_cons, h4]
          rfl
  have hevs : (initMidiParser.feedAll (0xF0 :: (bs ++ [0xF7]))).2
      = [c7EV1, c7EV2] := by
    calc (initMidiParser.feedAll (0xF0 :: (bs ++ [0xF7]))).2
        = (initMidiParser.Parse 0xF0 false).2.2.toList
          ++ ((initMidiParser.Parse 0xF0 false).1.feedAll
            (bs ++ [0xF7])).2 := feedAll_snd_cons _ _ _
      _ = (sysexStart.feedAll (bs ++ [0xF7])).2 := by rw [h0]; rfl
      _ = (sysexStart.feedAll bs).2
          ++ ((sysexStart.feedAll bs).1.feedAll [0xF7]).2 :=
          feedAll_snd_append _ _ _
      _ = [c7EV1, c7EV2] := by
          rw [hbs2, hbs1, feedAll_snd_cons, h4]
          rfl
  constructor
  · rw [hevs]
    rfl
  · intro e1 e2 heq
    rw [hevs] at heq
    injection heq with he1 hrest
    injection hrest with he2 hnil
    subst he1
    subst he2
    rw [hstate]
    have hpull1 : (SysexChunk.ReadBytes
        ⟨SysexChunkType.SeqFirst, true, 128, 0⟩ false 128 ⟨bs⟩)
        = (bs.take 128,
           ⟨SysexChunkType.SeqFirst, true, 128, 128⟩,
           ⟨bs.drop 128⟩) := by
      unfold SysexChunk.ReadBytes
      rw [if_neg (by simp)]
      rw [readBytesLoop_spec 128 ⟨SysexChunkType.SeqFirst, true, 128, 0⟩ bs rfl]
      have hm1 : min 128 (min (128 - 0) bs.length) = 128 := by
        rw [hlen]
        decide
      rw [hm1]
    have hpull2 : (SysexChunk.ReadBytes
        ⟨SysexChunkType.SeqLast, true, 72, 0⟩ false 72 ⟨bs.drop 128⟩)
        = (bs.drop 128,
           ⟨SysexChunkType.SeqLast, true, 72, 72⟩,
           ⟨(bs.drop 128).drop 72⟩) := by
      unfold SysexChunk.ReadBytes
      rw [if_neg (by simp)]
      rw [readBytesLoop_spec 72 ⟨SysexChunkType.SeqLast, true, 72, 0⟩
        (bs.drop 128) rfl]
      have hm2 : min 72 (min (72 - 0) (bs.drop 128).length) = 72 := by
        rw [hlen72]
        decide
      rw [hm2]
      rw [List.take_of_length_le (le_of_eq hlen72)]
    rw [show c7EV1.sysex_chunk
        = ⟨SysexChunkType.SeqFirst, true, 128, 0⟩ from rfl]
    rw [show c7EV2.sysex_chunk
        = ⟨SysexChunkType.SeqLast, true, 72, 0⟩ from rfl]
    rw [show (c7P4 bs).sysex_buf_ = ⟨bs⟩ from rfl]
    rw [hpull1, hpull2]
    exact List.take_append_drop 128 bs


/-- C7 witness: the round-trip facts evaluated at the concrete payload of 200
zero bytes. -/
theorem c7_sysex_roundtrip_200_witness :
    (List.replicate 200 (0 : Nat)).length = 200 ∧
    (∀ b ∈ List.replicate 200 (0 : Nat), b ≠ 0xF7) ∧
    ((initMidiParser.feedAll
        (0xF0 :: (List.replicate 200 (0 : Nat) ++ [0xF7]))).2.map
      (fun e => (e.sysex_chunk.type_, e.sysex_chunk.size_)))
      = [(SysexChunkType.SeqFirst, 128), (SysexChunkType.SeqLast, 72)] := by
  refine ⟨by simp, ?_, ?_⟩
  · intro b hb
    rw [List.eq_of_mem_replicate hb]
    decide
  · exact (c7_sysex_roundtrip_200 (List.replicate 200 (0 : Nat)) (by simp)
      (fun b hb => by rw [List.eq_of_mem_replicate hb]; decide)).1


end Daisy
